import Mathlib

/-!
Verification of the NGameRunner gameplay scenes: a shallow embedding of the
character state machine, one-way-platform contact filter, scene orchestration
and leaderboard logic from `samples/n_game.py`, `samples/n_game3.py` and
`samples/leaderboard_screen.py`.  Pixel coordinates, velocities and timers are
modelled as exact rationals; Box2D body handles are modelled as natural-number
identifiers; Python dicts keyed by player number are modelled as association
lists with first-key-wins lookup and in-place update.
-/

namespace NGameRunner

/-- Entity tags attached to game objects (`add_tag` in the scenes). -/
inductive Tag
  | goal
  | bomb
  | platform
  | character
deriving DecidableEq

/-- A Python dict from player number to a rational value. -/
abbrev Dict := List (Nat × ℚ)

/-- Dict lookup: value of the first entry with the given key. -/
def dictGet (k : Nat) (l : Dict) : Option ℚ :=
  match l with
  | [] => none
  | (k0, v0) :: rest => if k0 = k then some v0 else dictGet k rest

/-- Dict membership test (`key in d` in Python). -/
def dictHas (k : Nat) (l : Dict) : Bool :=
  match l with
  | [] => false
  | (k0, _) :: rest => if k0 = k then true else dictHas k rest

/-- Dict assignment `d[k] = v`: update the existing entry or append a new one. -/
def dictSet (k : Nat) (v : ℚ) (l : Dict) : Dict :=
  match l with
  | [] => [(k, v)]
  | (k0, v0) :: rest => if k0 = k then (k0, v) :: rest else (k0, v0) :: dictSet k v rest

/-- `NCharacter.fall_through_duration` (0.2 s in the source). -/
def fallThroughDuration : ℚ := 1 / 5

/-- `NCharacter.attack_display_duration` (0.1 s in the source). -/
def attackDisplayDuration : ℚ := 1 / 10

/-- `winner_display_duration` of the scenes (3.0 s in the source). -/
def winnerDisplayDuration : ℚ := 3

/-- Per-character state of `NCharacter` (identical fields in `n_game.py` and
`n_game3.py`): body position/velocity in pixels, the spawn point `p.position`,
the fall-through and attack flag/timer pairs, and the win/activity flags. -/
structure CharState where
  posX : ℚ
  posY : ℚ
  velX : ℚ
  velY : ℚ
  spawnX : ℚ
  spawnY : ℚ
  fallThrough : Bool
  fallThroughTimer : ℚ
  attack : Bool
  attackDisplayTimer : ℚ
  hasWon : Bool
  isActive : Bool
  bodyEnabled : Bool
deriving DecidableEq

/-- `NCharacter.__init__` together with the body built at `p.position` with zero
initial velocity: flags start false, timers at zero, `has_won` false. -/
def initChar (sx sy : ℚ) : CharState :=
  { posX := sx, posY := sy, velX := 0, velY := 0, spawnX := sx, spawnY := sy,
    fallThrough := false, fallThroughTimer := 0, attack := false,
    attackDisplayTimer := 0, hasWon := false, isActive := true, bodyEnabled := true }

/-- Per-frame input and contact observations consumed by `NCharacter.update`:
the down-input edge (`S` key / pad down / stick down past 0.5), the attack
edge, the `userData` tag lists of the bodies currently in contact (`none` for
bodies without user data), and the frame time. -/
structure CharInput where
  downPressed : Bool
  attackPressed : Bool
  contacts : List (Option (List Tag))
  dt : ℚ
deriving DecidableEq

/-- Level dimensions in pixels (`level.get_size()`). -/
structure LevelEnv where
  levelW : ℚ
  levelH : ℚ
deriving DecidableEq

/-- Whether any contacted body carries the given tag
(`other and other.has_tag(...)` over `self.body.get_contacts()`). -/
def touchesTag (t : Tag) (contacts : List (Option (List Tag))) : Bool :=
  contacts.any (fun ud =>
    match ud with
    | some tags => tags.contains t
    | none => false)

/-- Down-input branch of `NCharacter.update`: set the fall-through flag and
reset its timer to the full duration. -/
def ftPress (c : CharState) : CharState :=
  { c with fallThrough := true, fallThroughTimer := fallThroughDuration }

/-- Fall-through timer branch of `NCharacter.update`: while the timer is
positive, decrement it by the frame time floored at zero, and clear the flag
when the timer hits zero. -/
def ftTick (dt : ℚ) (c : CharState) : CharState :=
  if 0 < c.fallThroughTimer then
    if max 0 (c.fallThroughTimer - dt) = 0 then
      { c with fallThrough := false, fallThroughTimer := max 0 (c.fallThroughTimer - dt) }
    else { c with fallThroughTimer := max 0 (c.fallThroughTimer - dt) }
  else c

/-- Fall-through handling of one `NCharacter.update` call: the down-input
branch followed by the timer branch. -/
def ftPhase (down : Bool) (dt : ℚ) (c : CharState) : CharState :=
  ftTick dt (if down then ftPress c else c)

/-- Attack-input branch of `NCharacter.update`: set the attack flag and reset
its display timer (the overlap query and impulses affect other bodies only). -/
def attackPress (c : CharState) : CharState :=
  { c with attack := true, attackDisplayTimer := attackDisplayDuration }

/-- Attack timer branch of `NCharacter.update`: while the display timer is
positive, decrement it floored at zero, clearing the flag at zero. -/
def attackTick (dt : ℚ) (c : CharState) : CharState :=
  if 0 < c.attackDisplayTimer then
    if max 0 (c.attackDisplayTimer - dt) = 0 then
      { c with attack := false, attackDisplayTimer := max 0 (c.attackDisplayTimer - dt) }
    else { c with attackDisplayTimer := max 0 (c.attackDisplayTimer - dt) }
  else c

/-- Attack handling of one `NCharacter.update` call. -/
def attackPhase (pressed : Bool) (dt : ℚ) (c : CharState) : CharState :=
  attackTick dt (if pressed then attackPress c else c)

/-- Goal-contact branch of `NCharacter.update`: guarded by `has_won`; on a
contact whose user data is tagged `goal`, set `has_won`, deactivate, move the
body to (-1000, -1000), zero the velocity and disable the body. -/
def goalPhase (contacts : List (Option (List Tag))) (c : CharState) : CharState :=
  if c.hasWon then c
  else if touchesTag Tag.goal contacts then
    { c with hasWon := true, isActive := false, posX := -1000, posY := -1000,
             velX := 0, velY := 0, bodyEnabled := false }
  else c

/-- Bomb-contact branch of `NCharacter.update` (level 3 only): on a contact
tagged `bomb`, reset the body to the spawn point with zero velocity. -/
def bombPhase (contacts : List (Option (List Tag))) (c : CharState) : CharState :=
  if touchesTag Tag.bomb contacts then
    { c with posX := c.spawnX, posY := c.spawnY, velX := 0, velY := 0 }
  else c

/-- World-wrap of `NCharacter.update` in `n_game3.py`: x at or below 0
teleports to the right edge, x at or past the level width teleports to the
left edge, each at the same y with the velocity read back unchanged. -/
def wrapStep (e : LevelEnv) (c : CharState) : CharState :=
  if c.posX ≤ 0 then { c with posX := e.levelW }
  else if e.levelW ≤ c.posX then { c with posX := 0 }
  else c

/-- World-wrap and respawn of `NCharacter.update` in `n_game3.py` over the
single position read of line 293: first the wrap, then — if the read y
exceeds the level height plus 200 — the reset to the spawn point with zero
velocity. -/
def wrapRespawnPhase (e : LevelEnv) (c : CharState) : CharState :=
  if e.levelH + 200 < c.posY then
    { wrapStep e c with posX := c.spawnX, posY := c.spawnY, velX := 0, velY := 0 }
  else wrapStep e c

/-- Respawn check of `NCharacter.update` in `n_game.py`: if the body y exceeds
the level height plus 200, reset to the spawn point with zero velocity. -/
def respawnPhase (e : LevelEnv) (c : CharState) : CharState :=
  if e.levelH + 200 < c.posY then
    { c with posX := c.spawnX, posY := c.spawnY, velX := 0, velY := 0 }
  else c

/-- State-relevant part of `NCharacter.update` in `n_game.py`, in source
order: fall-through input and timer, attack input and timer, goal contact,
out-of-bounds respawn. -/
def charUpdate1 (e : LevelEnv) (i : CharInput) (c : CharState) : CharState :=
  respawnPhase e
    (goalPhase i.contacts
      (attackPhase i.attackPressed i.dt
        (ftPhase i.downPressed i.dt c)))

/-- State-relevant part of `NCharacter.update` in `n_game3.py`, in source
order: fall-through, attack, goal contact, bomb contact, then world-wrap and
out-of-bounds respawn over a single position read. -/
def charUpdate3 (e : LevelEnv) (i : CharInput) (c : CharState) : CharState :=
  wrapRespawnPhase e
    (bombPhase i.contacts
      (goalPhase i.contacts
        (attackPhase i.attackPressed i.dt
          (ftPhase i.downPressed i.dt c))))

/-- `NCharacter.pre_solve`: bodies are identifiers; `sign` is +1 when the
character is body A, -1 when it is body B, 0 otherwise; the contact is
disabled when `sign * normal.y < 0.5`, or when the fall-through flag is set
and the other body is the body of a listed one-way platform. -/
def pre_solve (selfBody : Nat) (fallThrough : Bool) (bodyA bodyB : Nat)
    (normalY : ℚ) (platforms : List Nat) : Bool :=
  let sign : ℚ := if bodyA = selfBody then 1 else if bodyB = selfBody then -1 else 0
  let other : Option Nat :=
    if bodyA = selfBody then some bodyB
    else if bodyB = selfBody then some bodyA
    else none
  if sign * normalY < 1 / 2 then false
  else if fallThrough &&
      (match other with
       | some o => platforms.contains o
       | none => false) then false
  else true

/-- `NContactListener.PreSolve`: scan the scene characters; on the first whose
body matches either contact body, set `contact.enabled = True` and stop;
otherwise leave the contact's enabled flag untouched. -/
def listenerPreSolve (characterBodies : List Nat) (bodyA bodyB : Nat)
    (enabled : Bool) : Bool :=
  if characterBodies.any (fun cb => bodyA == cb || bodyB == cb) then true else enabled

/-- Winner bookkeeping of `NScene` (`n_game.py`): the ordered winners list and
the per-player winner-display timers. -/
structure NSceneState where
  winners : List Nat
  winnerTimes : Dict
deriving DecidableEq

/-- `NScene.add_winner`: if the player is not yet in the winners list, append
it and start its display timer at zero; otherwise do nothing. -/
def add_winner (s : NSceneState) (pn : Nat) : NSceneState :=
  if pn ∈ s.winners then s
  else { winners := s.winners ++ [pn], winnerTimes := dictSet pn 0 s.winnerTimes }

/-- Race/timer state of `NScene3` (`n_game3.py`): elapsed match time, the
fixed time limit, the number of characters built from the level's Start
markers, winner bookkeeping, the scene's per-player completion times, the
cross-scene results store `game.player_times_level3`, and whether a scene
transition has been requested (`go_to_scene_next`). -/
structure Scene3State where
  elapsedTime : ℚ
  timeLimit : ℚ
  numCharacters : Nat
  winners : List Nat
  winnerTimes : Dict
  playerCompletionTimes : Dict
  playerTimesLevel3 : Dict
  transitionRequested : Bool
deriving DecidableEq

/-- Winner-display aging in the scene updates: each surviving timer is
incremented by the frame time, and entries past the display duration are
deleted. -/
def ageWinnerTimes (dt : ℚ) : Dict → Dict
  | [] => []
  | (pn, t) :: rest =>
      if winnerDisplayDuration < t + dt then ageWinnerTimes dt rest
      else (pn, t + dt) :: ageWinnerTimes dt rest

/-- DNF assignment loop of `NScene3.update`: for player numbers 1..n in order,
every player without an entry in the scene's completion times gets the -1.0
sentinel written to the cross-scene store. -/
def assignDNF (pct : Dict) (store : Dict) : Nat → Dict
  | 0 => store
  | Nat.succ n =>
      let st := assignDNF pct store n
      if dictHas (n + 1) pct then st else dictSet (n + 1) (-1) st

/-- Winner times of `NScene3` after this frame's aging. -/
def scene3AgedWT (dt : ℚ) (s : Scene3State) : Dict :=
  ageWinnerTimes dt s.winnerTimes

/-- The all-finished early-exit condition of `NScene3.update`: every character
has a completion time, there is at least one character, and every surviving
winner display has run past the display duration (vacuously true when none
survive) or the display dict is empty. -/
def scene3AllFinishedExit (dt : ℚ) (s : Scene3State) : Bool :=
  decide (s.playerCompletionTimes.length = s.numCharacters) &&
  decide (0 < s.numCharacters) &&
  ((scene3AgedWT dt s).all (fun p => decide (winnerDisplayDuration < p.2)) ||
    (scene3AgedWT dt s).isEmpty)

/-- Timer and transition logic of `NScene3.update`: advance elapsed time, age
the winner displays, then either take the all-finished early exit, or — when
the elapsed time has reached the time limit — write the DNF sentinel for every
character without a completion time and request the transition.  Sound,
particle and input handling of the source carry no race state and are
omitted. -/
def scene3Update (dt : ℚ) (s : Scene3State) : Scene3State :=
  let s1 := { s with elapsedTime := s.elapsedTime + dt, winnerTimes := scene3AgedWT dt s }
  if scene3AllFinishedExit dt s then { s1 with transitionRequested := true }
  else if s1.timeLimit ≤ s1.elapsedTime then
    { s1 with playerTimesLevel3 := assignDNF s1.playerCompletionTimes s1.playerTimesLevel3 s1.numCharacters,
              transitionRequested := true }
  else s1

/-- One leaderboard row as assembled by `LeaderboardScreen.init`: the player
number, the total time (-1 as the DNF sentinel), and the formatted status and
per-level strings. -/
structure LBResult where
  player : Nat
  totalTime : ℚ
  status : String
  level1 : String
  level2 : String
  level3 : String
deriving DecidableEq

/-- `LeaderboardScreen.format_time`: negative times render as "DNF", otherwise
M:SS.ss with the minutes unpadded, the seconds zero-padded to width 5 and
rounded to the nearest hundredth. -/
def format_time (t : ℚ) : String :=
  if t < 0 then "DNF"
  else
    let m : Nat := (⌊t / 60⌋).toNat
    let secs : ℚ := t - 60 * (m : ℚ)
    let hund : Nat := (⌊secs * 100 + 1 / 2⌋).toNat
    let ip : Nat := hund / 100
    let fp : Nat := hund % 100
    toString m ++ ":" ++ (if ip < 10 then "0" else "") ++ toString ip ++ "." ++
      (if fp < 10 then "0" else "") ++ toString fp

/-- One result row of `LeaderboardScreen.init`: per-level times default to the
-1 sentinel when absent; any negative level time makes the total -1 with
status "DNF", otherwise the total is the sum of the three level times. -/
def mkResult (l1 l2 l3 : Dict) (pn : Nat) : LBResult :=
  let t1 := (dictGet pn l1).getD (-1)
  let t2 := (dictGet pn l2).getD (-1)
  let t3 := (dictGet pn l3).getD (-1)
  if t1 < 0 ∨ t2 < 0 ∨ t3 < 0 then
    { player := pn, totalTime := -1, status := "DNF",
      level1 := if 0 ≤ t1 then format_time t1 else "DNF",
      level2 := if 0 ≤ t2 then format_time t2 else "DNF",
      level3 := if 0 ≤ t3 then format_time t3 else "DNF" }
  else
    { player := pn, totalTime := t1 + t2 + t3, status := format_time (t1 + t2 + t3),
      level1 := if 0 ≤ t1 then format_time t1 else "DNF",
      level2 := if 0 ≤ t2 then format_time t2 else "DNF",
      level3 := if 0 ≤ t3 then format_time t3 else "DNF" }

/-- The sort key order of `LeaderboardScreen.init`: rows compare by the pair
(is-DNF, total time with DNF mapped to infinity) — finite totals ascending,
all DNF rows equal and after every finite total. -/
def resLE (a b : LBResult) : Bool :=
  if a.totalTime < 0 then
    if b.totalTime < 0 then true else false
  else
    if b.totalTime < 0 then true else decide (a.totalTime ≤ b.totalTime)

/-- Insert into an already sorted list before the first element not below the
new one (the insertion step of a stable ascending sort). -/
def insertSorted (le : LBResult → LBResult → Bool) (a : LBResult) :
    List LBResult → List LBResult
  | [] => [a]
  | b :: l => if le a b then a :: b :: l else b :: insertSorted le a l

/-- Stable ascending sort modelling Python's stable `list.sort`. -/
def stableSort (le : LBResult → LBResult → Bool) : List LBResult → List LBResult
  | [] => []
  | a :: l => insertSorted le a (stableSort le l)

/-- Insert a key into an ascending duplicate-free list of player numbers. -/
def insertKey (k : Nat) : List Nat → List Nat
  | [] => [k]
  | a :: l => if k < a then k :: a :: l else if k = a then a :: l else a :: insertKey k l

/-- The union of the key sets of the three per-level time dicts, ascending
(CPython iterates a set of small ints in ascending order). -/
def playerKeys (l1 l2 l3 : Dict) : List Nat :=
  (l1.map (fun p => p.1) ++ l2.map (fun p => p.1) ++ l3.map (fun p => p.1)).foldr insertKey []

/-- The sorted leaderboard rows computed by `LeaderboardScreen.init` from the
three per-level cross-scene time dicts. -/
def buildResults (l1 l2 l3 : Dict) : List LBResult :=
  stableSort resLE ((playerKeys l1 l2 l3).map (mkResult l1 l2 l3))

/-- Fall-through flag/timer pairing: the flag is set exactly while the timer
is strictly positive. -/
def ftInvariant (c : CharState) : Prop :=
  c.fallThrough = true ↔ 0 < c.fallThroughTimer

/-- Attack flag/timer pairing: the flag is set exactly while the display timer
is strictly positive. -/
def atkInvariant (c : CharState) : Prop :=
  c.attack = true ↔ 0 < c.attackDisplayTimer

/-- Both timer-flag pairings of a character. -/
def timerInvariant (c : CharState) : Prop :=
  ftInvariant c ∧ atkInvariant c

/-- A character with its fall-through window freshly opened, used to
instantiate hypotheses at a concrete state. -/
def sampleFT : CharState :=
  { initChar 0 0 with fallThrough := true, fallThroughTimer := 1 / 5 }

/-- A character standing at (0, 301) with velocity (3, 4) in a 100 x 100
level: at the left edge and simultaneously more than 200 pixels below the
level bottom. -/
def sampleEdgeChar : CharState :=
  { initChar 50 50 with posX := 0, posY := 301, velX := 3, velY := 4 }

/-- A 100 x 100 pixel level. -/
def sampleEnv : LevelEnv := { levelW := 100, levelH := 100 }

/-- A frame with no input edges, no contacts and zero frame time. -/
def idleInput : CharInput :=
  { downPressed := false, attackPressed := false, contacts := [], dt := 0 }

/-- A character out of bounds below a 100 x 100 level, not at an edge. -/
def sampleFallenChar : CharState :=
  { initChar 50 50 with posX := 30, posY := 400, velX := 3, velY := 4, hasWon := true }

/-- An `NScene3` one frame before its 120-second time limit, with two
characters of which only player 1 has finished (at 10 s). -/
def sampleScene3 : Scene3State :=
  { elapsedTime := 119, timeLimit := 120, numCharacters := 2, winners := [1],
    winnerTimes := [], playerCompletionTimes := [(1, 10)],
    playerTimesLevel3 := [(1, 10)], transitionRequested := false }

/-- Level-1 completion times realising the leaderboard scenario: P1 at
65.2 s, P2 carrying the -1 DNF sentinel, P3 at 40 s. -/
def lbTimes1 : Dict := [(1, 326 / 5), (2, -1), (3, 40)]

/-- Zero completion times for the other two levels, so that each player's
total equals its `lbTimes1` entry. -/
def lbTimesZero : Dict := [(1, 0), (2, 0), (3, 0)]

/- Rational arithmetic in the library is sealed against unfolding; reopen it
so that concrete states evaluate by kernel reduction. -/
attribute [local semireducible] Rat.mul Rat.add Rat.sub Rat.inv Rat.ofScientific

lemma ftTick_timer (dt : ℚ) (c : CharState) :
    (ftTick dt c).fallThroughTimer =
      if 0 < c.fallThroughTimer then max 0 (c.fallThroughTimer - dt)
      else c.fallThroughTimer := by
  unfold ftTick
  split_ifs <;> rfl

lemma ftTick_ftInv (dt : ℚ) (c : CharState) (h : ftInvariant c) :
    ftInvariant (ftTick dt c) := by
  unfold ftInvariant ftTick at *
  split_ifs with h1 h2
  · simp [h2]
  · have h3 : 0 < max 0 (c.fallThroughTimer - dt) :=
      lt_of_le_of_ne (le_max_left 0 _) (Ne.symm h2)
    simp [h3, h.mpr h1]
  · exact h

lemma ftPress_ftInv (c : CharState) : ftInvariant (ftPress c) := by
  unfold ftInvariant ftPress fallThroughDuration
  norm_num

lemma ftPhase_ftInv (d : Bool) (dt : ℚ) (c : CharState) (h : ftInvariant c) :
    ftInvariant (ftPhase d dt c) := by
  unfold ftPhase
  cases d
  · simpa using ftTick_ftInv dt c h
  · simpa using ftTick_ftInv dt (ftPress c) (ftPress_ftInv c)

lemma attackTick_atkInv (dt : ℚ) (c : CharState) (h : atkInvariant c) :
    atkInvariant (attackTick dt c) := by
  unfold atkInvariant attackTick at *
  split_ifs with h1 h2
  · simp [h2]
  · have h3 : 0 < max 0 (c.attackDisplayTimer - dt) :=
      lt_of_le_of_ne (le_max_left 0 _) (Ne.symm h2)
    simp [h3, h.mpr h1]
  · exact h

lemma attackPress_atkInv (c : CharState) : atkInvariant (attackPress c) := by
  unfold atkInvariant attackPress attackDisplayDuration
  norm_num

lemma attackPhase_atkInv (p : Bool) (dt : ℚ) (c : CharState) (h : atkInvariant c) :
    atkInvariant (attackPhase p dt c) := by
  unfold attackPhase
  cases p
  · simpa using attackTick_atkInv dt c h
  · simpa using attackTick_atkInv dt (attackPress c) (attackPress_atkInv c)

lemma ftPhase_other_fields (d : Bool) (dt : ℚ) (c : CharState) :
    (ftPhase d dt c).posX = c.posX ∧ (ftPhase d dt c).posY = c.posY ∧
    (ftPhase d dt c).velX = c.velX ∧ (ftPhase d dt c).velY = c.velY ∧
    (ftPhase d dt c).spawnX = c.spawnX ∧ (ftPhase d dt c).spawnY = c.spawnY ∧
    (ftPhase d dt c).attack = c.attack ∧
    (ftPhase d dt c).attackDisplayTimer = c.attackDisplayTimer ∧
    (ftPhase d dt c).hasWon = c.hasWon := by
  unfold ftPhase ftTick ftPress
  cases d <;> simp only [Bool.false_eq_true, if_false, if_true] <;>
    split_ifs <;> simp

lemma attackPhase_other_fields (p : Bool) (dt : ℚ) (c : CharState) :
    (attackPhase p dt c).posX = c.posX ∧ (attackPhase p dt c).posY = c.posY ∧
    (attackPhase p dt c).velX = c.velX ∧ (attackPhase p dt c).velY = c.velY ∧
    (attackPhase p dt c).spawnX = c.spawnX ∧ (attackPhase p dt c).spawnY = c.spawnY ∧
    (attackPhase p dt c).fallThrough = c.fallThrough ∧
    (attackPhase p dt c).fallThroughTimer = c.fallThroughTimer ∧
    (attackPhase p dt c).hasWon = c.hasWon := by
  unfold attackPhase attackTick attackPress
  cases p <;> simp only [Bool.false_eq_true, if_false, if_true] <;>
    split_ifs <;> simp

lemma goalPhase_no_goal (contacts : List (Option (List Tag))) (c : CharState)
    (hg : touchesTag Tag.goal contacts = false) :
    goalPhase contacts c = c := by
  unfold goalPhase
  rw [hg]
  split_ifs <;> simp_all

lemma goalPhase_hasWon (contacts : List (Option (List Tag))) (c : CharState) :
    (goalPhase contacts c).hasWon = (c.hasWon || touchesTag Tag.goal contacts) := by
  unfold goalPhase
  split_ifs with h1 h2 <;> simp_all

lemma goalPhase_timer_fields (contacts : List (Option (List Tag))) (c : CharState) :
    (goalPhase contacts c).fallThrough = c.fallThrough ∧
    (goalPhase contacts c).fallThroughTimer = c.fallThroughTimer ∧
    (goalPhase contacts c).attack = c.attack ∧
    (goalPhase contacts c).attackDisplayTimer = c.attackDisplayTimer ∧
    (goalPhase contacts c).spawnX = c.spawnX ∧
    (goalPhase contacts c).spawnY = c.spawnY := by
  unfold goalPhase
  split_ifs <;> simp

lemma bombPhase_no_bomb (contacts : List (Option (List Tag))) (c : CharState)
    (hb : touchesTag Tag.bomb contacts = false) :
    bombPhase contacts c = c := by
  unfold bombPhase
  rw [hb]
  simp

lemma bombPhase_timer_fields (contacts : List (Option (List Tag))) (c : CharState) :
    (bombPhase contacts c).fallThrough = c.fallThrough ∧
    (bombPhase contacts c).fallThroughTimer = c.fallThroughTimer ∧
    (bombPhase contacts c).attack = c.attack ∧
    (bombPhase contacts c).attackDisplayTimer = c.attackDisplayTimer ∧
    (bombPhase contacts c).hasWon = c.hasWon ∧
    (bombPhase contacts c).spawnX = c.spawnX ∧
    (bombPhase contacts c).spawnY = c.spawnY := by
  unfold bombPhase
  split_ifs <;> simp

lemma wrapRespawnPhase_timer_fields (e : LevelEnv) (c : CharState) :
    (wrapRespawnPhase e c).fallThrough = c.fallThrough ∧
    (wrapRespawnPhase e c).fallThroughTimer = c.fallThroughTimer ∧
    (wrapRespawnPhase e c).attack = c.attack ∧
    (wrapRespawnPhase e c).attackDisplayTimer = c.attackDisplayTimer ∧
    (wrapRespawnPhase e c).hasWon = c.hasWon := by
  unfold wrapRespawnPhase wrapStep
  split_ifs <;> simp

lemma respawnPhase_timer_fields (e : LevelEnv) (c : CharState) :
    (respawnPhase e c).fallThrough = c.fallThrough ∧
    (respawnPhase e c).fallThroughTimer = c.fallThroughTimer ∧
    (respawnPhase e c).attack = c.attack ∧
    (respawnPhase e c).attackDisplayTimer = c.attackDisplayTimer ∧
    (respawnPhase e c).hasWon = c.hasWon := by
  unfold respawnPhase
  split_ifs <;> simp

/-- C1: for a contact pair in which exactly one body is the character's body,
`NCharacter.pre_solve` returns false exactly when `sign * normal.y < 0.5`
(with sign +1 when the character is body A, -1 when body B) or the
fall-through flag is set and the other body is the body of a listed one-way
platform; otherwise it returns true. -/
theorem pre_solve_one_way (selfBody bodyA bodyB : Nat) (ft : Bool) (ny : ℚ)
    (platforms : List Nat)
    (h : (bodyA = selfBody ∧ bodyB ≠ selfBody) ∨ (bodyA ≠ selfBody ∧ bodyB = selfBody)) :
    pre_solve selfBody ft bodyA bodyB ny platforms = false ↔
      ((if bodyA = selfBody then (1 : ℚ) else -1) * ny < 1 / 2 ∨
        (ft = true ∧ platforms.contains (if bodyA = selfBody then bodyB else bodyA) = true)) := by
  rcases h with ⟨hA, hB⟩ | ⟨hA, hB⟩ <;>
    simp only [pre_solve, hA, hB, if_pos, if_neg, ite_true, ite_false, if_false] <;>
    split_ifs <;>
    simp_all [Bool.and_eq_true]

/-- Witness for C1 at a concrete contact: character body 0 is body A, the
normal points sideways (normal.y = 0), so the contact is disabled. -/
theorem pre_solve_one_way_witness :
    ((0 = 0 ∧ 1 ≠ 0) ∨ (0 ≠ 0 ∧ 1 = 0)) ∧
    (pre_solve 0 false 0 1 0 [] = false ↔
      ((if 0 = 0 then (1 : ℚ) else -1) * 0 < 1 / 2 ∨
        (false = true ∧ List.contains [] (if 0 = 0 then 1 else 0) = true))) :=
  ⟨by decide, pre_solve_one_way 0 0 1 false 0 [] (by decide)⟩

/-- C2: a down-input sets the fall-through flag and resets its remaining
duration to 0.2 s; within one update the remaining duration then decreases by
the frame time floored at zero (only while it was positive), and afterwards
the flag is set exactly while the remaining duration is positive — in
particular it turns off exactly when the duration reaches zero. -/
theorem fall_through_timer_spec (c : CharState) (d : Bool) (dt : ℚ)
    (hInv : ftInvariant c) :
    ((ftPress c).fallThrough = true ∧ (ftPress c).fallThroughTimer = fallThroughDuration) ∧
    (ftPhase d dt c).fallThroughTimer =
      (if d then max 0 (fallThroughDuration - dt)
       else if 0 < c.fallThroughTimer then max 0 (c.fallThroughTimer - dt)
       else c.fallThroughTimer) ∧
    ((ftPhase d dt c).fallThrough = true ↔ 0 < (ftPhase d dt c).fallThroughTimer) := by
  refine ⟨⟨rfl, rfl⟩, ?_, ftPhase_ftInv d dt c hInv⟩
  unfold ftPhase
  cases d
  · simpa using ftTick_timer dt c
  · have h : (0 : ℚ) < (ftPress c).fallThroughTimer := by
      unfold ftPress fallThroughDuration
      norm_num
    simpa [h] using ftTick_timer dt (ftPress c)

/-- Witness for C2 at a concrete state: fall-through just activated
(flag set, 0.2 s remaining), a further down-input this frame, 0.1 s frame
time. -/
theorem fall_through_timer_spec_witness :
    ftInvariant sampleFT ∧
    (((ftPress sampleFT).fallThrough = true ∧
        (ftPress sampleFT).fallThroughTimer = fallThroughDuration) ∧
      (ftPhase true (1 / 10) sampleFT).fallThroughTimer =
        (if true then max 0 (fallThroughDuration - 1 / 10)
         else if 0 < sampleFT.fallThroughTimer then max 0 (sampleFT.fallThroughTimer - 1 / 10)
         else sampleFT.fallThroughTimer) ∧
      ((ftPhase true (1 / 10) sampleFT).fallThrough = true ↔
        0 < (ftPhase true (1 / 10) sampleFT).fallThroughTimer)) :=
  ⟨by unfold ftInvariant sampleFT initChar; norm_num,
    fall_through_timer_spec sampleFT true (1 / 10)
      (by unfold ftInvariant sampleFT initChar; norm_num)⟩

lemma dictGet_dictSet_self (k : Nat) (v : ℚ) (l : Dict) :
    dictGet k (dictSet k v l) = some v := by
  induction l with
  | nil => simp [dictSet, dictGet]
  | cons p rest ih =>
      obtain ⟨k0, v0⟩ := p
      by_cases h : k0 = k <;> simp [dictSet, dictGet, h, ih]

lemma dictGet_dictSet_ne (k k2 : Nat) (v : ℚ) (l : Dict) (h : k2 ≠ k) :
    dictGet k (dictSet k2 v l) = dictGet k l := by
  induction l with
  | nil => simp [dictSet, dictGet, h]
  | cons p rest ih =>
      obtain ⟨k0, v0⟩ := p
      by_cases h0 : k0 = k2
      · subst h0
        simp [dictSet, dictGet, h]
      · by_cases h1 : k0 = k <;> simp [dictSet, dictGet, h0, h1, Ne.symm h, ih]

lemma dictSet_absent (k : Nat) (v : ℚ) (l : Dict) (h : dictHas k l = false) :
    dictSet k v l = l ++ [(k, v)] := by
  induction l with
  | nil => simp [dictSet]
  | cons p rest ih =>
      obtain ⟨k0, v0⟩ := p
      by_cases h0 : k0 = k
      · simp [dictHas, h0] at h
      · simp [dictHas, h0] at h
        simp [dictSet, h0, ih h]

lemma countP_zero_of_absent (k : Nat) (l : Dict) (h : dictHas k l = false) :
    l.countP (fun q => q.1 == k) = 0 := by
  induction l with
  | nil => simp
  | cons p rest ih =>
      obtain ⟨k0, v0⟩ := p
      by_cases h0 : k0 = k
      · simp [dictHas, h0] at h
      · simp [dictHas, h0] at h
        simp [List.countP_cons, h0, ih h]

lemma dictHas_false_iff_dictGet_none (k : Nat) (l : Dict) :
    dictHas k l = false ↔ dictGet k l = none := by
  induction l with
  | nil => simp [dictHas, dictGet]
  | cons p rest ih =>
      obtain ⟨k0, v0⟩ := p
      by_cases h0 : k0 = k <;> simp [dictHas, dictGet, h0, ih]

/-- C3 counterexample: a contact between bodies 5 and 6, with a character
whose body is 7 (neither body of the pair), a straight-up normal and no
platforms — `NCharacter.pre_solve` returns false (it would disable the
contact), not true as the claim states. -/
theorem no_character_contact_counterexample :
    (5 : Nat) ≠ 7 ∧ (6 : Nat) ≠ 7 ∧ pre_solve 7 false 5 6 1 [] = false := by
  decide

/-- C3 amended: when neither contact body is a known character's body, the
wired listener `NContactListener.PreSolve` applies no filtering and leaves the
contact's enabled flag unchanged (so a default-enabled contact stays solid);
however, evaluating `NCharacter.pre_solve` on such a pair returns false
(disabled), because `sign` stays 0 and `0 * normal.y < 0.5`. -/
theorem no_character_contact_default (characterBodies : List Nat)
    (bodyA bodyB selfBody : Nat) (enabled ft : Bool) (ny : ℚ) (platforms : List Nat)
    (hChars : characterBodies.all (fun cb => !(bodyA == cb) && !(bodyB == cb)) = true)
    (hA : bodyA ≠ selfBody) (hB : bodyB ≠ selfBody) :
    listenerPreSolve characterBodies bodyA bodyB enabled = enabled ∧
    pre_solve selfBody ft bodyA bodyB ny platforms = false := by
  constructor
  · have hAny : ¬ characterBodies.any (fun cb => bodyA == cb || bodyB == cb) = true := by
      simp only [List.all_eq_true, Bool.and_eq_true, Bool.not_eq_true',
        beq_eq_false_iff_ne] at hChars
      simp only [List.any_eq_true, Bool.or_eq_true, beq_iff_eq, not_exists]
      rintro cb ⟨hmem, hcb | hcb⟩
      · exact (hChars cb hmem).1 hcb
      · exact (hChars cb hmem).2 hcb
    unfold listenerPreSolve
    rw [if_neg hAny]
  · simp only [pre_solve, if_neg hA, if_neg hB]
    norm_num

/-- Witness for C3's amended statement: bodies 5 and 6, characters with
bodies 7 and 8, an initially enabled contact. -/
theorem no_character_contact_default_witness :
    ([7, 8].all (fun cb => !(5 == cb) && !(6 == cb)) = true ∧ (5 : Nat) ≠ 7 ∧ (6 : Nat) ≠ 7) ∧
    (listenerPreSolve [7, 8] 5 6 true = true ∧ pre_solve 7 false 5 6 1 [] = false) :=
  ⟨by decide, no_character_contact_default [7, 8] 5 6 7 true false 1 []
    (by decide) (by decide) (by decide)⟩

/-- C4: winner registration is idempotent — re-running the `has_won`-guarded
goal handler is a no-op, calling `NScene.add_winner` a second time with the
same player leaves the scene state unchanged, and a first registration
produces exactly one winners-list entry and one display-timer entry (started
at 0) for that player. -/
theorem add_winner_idempotent (s : NSceneState) (pn : Nat)
    (contacts : List (Option (List Tag))) (c : CharState)
    (h : pn ∉ s.winners) (h2 : dictHas pn s.winnerTimes = false) :
    add_winner (add_winner s pn) pn = add_winner s pn ∧
    goalPhase contacts (goalPhase contacts c) = goalPhase contacts c ∧
    (add_winner s pn).winners.count pn = 1 ∧
    dictGet pn (add_winner s pn).winnerTimes = some 0 ∧
    (add_winner s pn).winnerTimes.countP (fun q => q.1 == pn) = 1 := by
  refine ⟨?_, ?_, ?_, ?_, ?_⟩
  · unfold add_winner
    rw [if_neg h]
    simp
  · unfold goalPhase
    split_ifs <;> simp_all
  · unfold add_winner
    rw [if_neg h]
    simp [List.count_append, List.count_eq_zero.mpr h]
  · unfold add_winner
    rw [if_neg h]
    simpa using dictGet_dictSet_self pn 0 s.winnerTimes
  · unfold add_winner
    rw [if_neg h]
    simp only [dictSet_absent pn 0 s.winnerTimes h2, List.countP_append,
      countP_zero_of_absent pn s.winnerTimes h2]
    simp

/-- Witness for C4: empty scene state, player 1 winning with a goal
contact. -/
theorem add_winner_idempotent_witness :
    (1 ∉ (⟨[], []⟩ : NSceneState).winners ∧
      dictHas 1 (⟨[], []⟩ : NSceneState).winnerTimes = false) ∧
    (add_winner (add_winner ⟨[], []⟩ 1) 1 = add_winner ⟨[], []⟩ 1 ∧
      goalPhase [some [Tag.goal]] (goalPhase [some [Tag.goal]] (initChar 0 0)) =
        goalPhase [some [Tag.goal]] (initChar 0 0) ∧
      (add_winner ⟨[], []⟩ 1).winners.count 1 = 1 ∧
      dictGet 1 (add_winner ⟨[], []⟩ 1).winnerTimes = some 0 ∧
      (add_winner ⟨[], []⟩ 1).winnerTimes.countP (fun q => q.1 == 1) = 1) :=
  ⟨by decide, add_winner_idempotent ⟨[], []⟩ 1 [some [Tag.goal]] (initChar 0 0)
    (by decide) (by decide)⟩

/-- C5: `has_won` starts false and is monotonic — one `NCharacter.update`
(in either level scene) leaves it true once true; precisely, after an update
it equals the old value or-ed with whether a goal contact was present, so no
branch (goal, bomb, respawn, world-wrap, attack, timers) ever resets it. -/
theorem has_won_monotone (e : LevelEnv) (i : CharInput) (c : CharState) (sx sy : ℚ) :
    (initChar sx sy).hasWon = false ∧
    (charUpdate1 e i c).hasWon = (c.hasWon || touchesTag Tag.goal i.contacts) ∧
    (charUpdate3 e i c).hasWon = (c.hasWon || touchesTag Tag.goal i.contacts) := by
  obtain ⟨_, _, _, _, _, _, _, _, hw1⟩ := ftPhase_other_fields i.downPressed i.dt c
  obtain ⟨_, _, _, _, _, _, _, _, hw2⟩ :=
    attackPhase_other_fields i.attackPressed i.dt (ftPhase i.downPressed i.dt c)
  refine ⟨rfl, ?_, ?_⟩
  · unfold charUpdate1
    rw [(respawnPhase_timer_fields _ _).2.2.2.2, goalPhase_hasWon, hw2, hw1]
  · unfold charUpdate3
    rw [(wrapRespawnPhase_timer_fields _ _).2.2.2.2,
      (bombPhase_timer_fields _ _).2.2.2.2.1, goalPhase_hasWon, hw2, hw1]

lemma wrapStep_fields (e : LevelEnv) (c : CharState) :
    (wrapStep e c).posY = c.posY ∧ (wrapStep e c).velX = c.velX ∧
    (wrapStep e c).velY = c.velY ∧ (wrapStep e c).spawnX = c.spawnX ∧
    (wrapStep e c).spawnY = c.spawnY ∧ (wrapStep e c).hasWon = c.hasWon := by
  unfold wrapStep
  split_ifs <;> simp

lemma wrapStep_posX (e : LevelEnv) (c : CharState) :
    (wrapStep e c).posX =
      (if c.posX ≤ 0 then e.levelW else if e.levelW ≤ c.posX then 0 else c.posX) := by
  unfold wrapStep
  split_ifs <;> simp

/-- C6: a character whose body y exceeds the level height plus 200 (and that
touches no goal or bomb this frame, so nothing moves the body before the
respawn check reads it) is reset by the next update — in either level scene —
to its spawn point with zero velocity, whatever the value of `has_won`, and
`has_won` is unchanged. -/
theorem respawn_out_of_bounds (e : LevelEnv) (i : CharInput) (c : CharState)
    (hy : e.levelH + 200 < c.posY)
    (hg : touchesTag Tag.goal i.contacts = false)
    (hb : touchesTag Tag.bomb i.contacts = false) :
    ((charUpdate1 e i c).posX = c.spawnX ∧ (charUpdate1 e i c).posY = c.spawnY ∧
      (charUpdate1 e i c).velX = 0 ∧ (charUpdate1 e i c).velY = 0 ∧
      (charUpdate1 e i c).hasWon = c.hasWon) ∧
    ((charUpdate3 e i c).posX = c.spawnX ∧ (charUpdate3 e i c).posY = c.spawnY ∧
      (charUpdate3 e i c).velX = 0 ∧ (charUpdate3 e i c).velY = 0 ∧
      (charUpdate3 e i c).hasWon = c.hasWon) := by
  obtain ⟨hpx0, hpy0, hvx0, hvy0, hsx0, hsy0, _, _, hw0⟩ :=
    ftPhase_other_fields i.downPressed i.dt c
  obtain ⟨hpx, hpy, hvx, hvy, hsx, hsy, _, _, hw⟩ :=
    attackPhase_other_fields i.attackPressed i.dt (ftPhase i.downPressed i.dt c)
  unfold charUpdate1 charUpdate3
  rw [goalPhase_no_goal _ _ hg, bombPhase_no_bomb _ _ hb]
  set c2 := attackPhase i.attackPressed i.dt (ftPhase i.downPressed i.dt c) with hc2
  have hpy2 : c2.posY = c.posY := by rw [hpy, hpy0]
  have hsx2 : c2.spawnX = c.spawnX := by rw [hsx, hsx0]
  have hsy2 : c2.spawnY = c.spawnY := by rw [hsy, hsy0]
  have hw2 : c2.hasWon = c.hasWon := by rw [hw, hw0]
  have hcond : e.levelH + 200 < c2.posY := by rw [hpy2]; exact hy
  constructor
  · unfold respawnPhase
    rw [if_pos hcond]
    exact ⟨hsx2, hsy2, rfl, rfl, hw2⟩
  · unfold wrapRespawnPhase
    rw [if_pos hcond]
    refine ⟨hsx2, hsy2, rfl, rfl, ?_⟩
    show (wrapStep e c2).hasWon = c.hasWon
    rw [(wrapStep_fields e c2).2.2.2.2.2, hw2]

/-- Witness for C6: a character 100 pixels below the out-of-bounds line of a
100 x 100 level, moving with velocity (3, 4), already flagged as having won,
an idle frame. -/
theorem respawn_out_of_bounds_witness :
    (sampleEnv.levelH + 200 < sampleFallenChar.posY ∧
      touchesTag Tag.goal idleInput.contacts = false ∧
      touchesTag Tag.bomb idleInput.contacts = false) ∧
    (((charUpdate1 sampleEnv idleInput sampleFallenChar).posX = sampleFallenChar.spawnX ∧
      (charUpdate1 sampleEnv idleInput sampleFallenChar).posY = sampleFallenChar.spawnY ∧
      (charUpdate1 sampleEnv idleInput sampleFallenChar).velX = 0 ∧
      (charUpdate1 sampleEnv idleInput sampleFallenChar).velY = 0 ∧
      (charUpdate1 sampleEnv idleInput sampleFallenChar).hasWon = sampleFallenChar.hasWon) ∧
    ((charUpdate3 sampleEnv idleInput sampleFallenChar).posX = sampleFallenChar.spawnX ∧
      (charUpdate3 sampleEnv idleInput sampleFallenChar).posY = sampleFallenChar.spawnY ∧
      (charUpdate3 sampleEnv idleInput sampleFallenChar).velX = 0 ∧
      (charUpdate3 sampleEnv idleInput sampleFallenChar).velY = 0 ∧
      (charUpdate3 sampleEnv idleInput sampleFallenChar).hasWon = sampleFallenChar.hasWon)) :=
  ⟨by decide, respawn_out_of_bounds sampleEnv idleInput sampleFallenChar
    (by decide) (by decide) (by decide)⟩

/-- C7 counterexample: a character at the left edge (x = 0) that is also more
than 200 pixels below a 100 x 100 level (y = 301).  The update does not leave
it at `(levelWidth, y)` with its velocity (3, 4): the out-of-bounds respawn
runs after the wrap and resets the body to the spawn point (50, 50) with zero
velocity. -/
theorem world_wrap_counterexample :
    sampleEdgeChar.posX ≤ 0 ∧
    ¬ ((charUpdate3 sampleEnv idleInput sampleEdgeChar).posX = sampleEnv.levelW ∧
      (charUpdate3 sampleEnv idleInput sampleEdgeChar).posY = sampleEdgeChar.posY ∧
      (charUpdate3 sampleEnv idleInput sampleEdgeChar).velX = sampleEdgeChar.velX ∧
      (charUpdate3 sampleEnv idleInput sampleEdgeChar).velY = sampleEdgeChar.velY) := by
  decide

/-- C7 amended: in the level-3 scene, for a character that touches no goal or
bomb this frame and whose y does not exceed the level height plus 200 (the
out-of-bounds respawn would otherwise override the wrap), the update
teleports x ≤ 0 to the right edge and x ≥ levelWidth (with x > 0) to the left
edge, keeping y and the velocity, and leaves in-range x unchanged. -/
theorem world_wrap_amended (e : LevelEnv) (i : CharInput) (c : CharState)
    (hg : touchesTag Tag.goal i.contacts = false)
    (hb : touchesTag Tag.bomb i.contacts = false)
    (hy : c.posY ≤ e.levelH + 200) :
    (charUpdate3 e i c).posX =
      (if c.posX ≤ 0 then e.levelW else if e.levelW ≤ c.posX then 0 else c.posX) ∧
    (charUpdate3 e i c).posY = c.posY ∧
    (charUpdate3 e i c).velX = c.velX ∧
    (charUpdate3 e i c).velY = c.velY := by
  obtain ⟨hpx0, hpy0, hvx0, hvy0, _, _, _, _, _⟩ :=
    ftPhase_other_fields i.downPressed i.dt c
  obtain ⟨hpx, hpy, hvx, hvy, _, _, _, _, _⟩ :=
    attackPhase_other_fields i.attackPressed i.dt (ftPhase i.downPressed i.dt c)
  unfold charUpdate3
  rw [goalPhase_no_goal _ _ hg, bombPhase_no_bomb _ _ hb]
  set c2 := attackPhase i.attackPressed i.dt (ftPhase i.downPressed i.dt c) with hc2
  have hpx2 : c2.posX = c.posX := by rw [hpx, hpx0]
  have hpy2 : c2.posY = c.posY := by rw [hpy, hpy0]
  have hvx2 : c2.velX = c.velX := by rw [hvx, hvx0]
  have hvy2 : c2.velY = c.velY := by rw [hvy, hvy0]
  have hcond : ¬ e.levelH + 200 < c2.posY := by rw [hpy2]; exact not_lt.mpr hy
  unfold wrapRespawnPhase
  rw [if_neg hcond]
  refine ⟨?_, ?_, ?_, ?_⟩
  · rw [wrapStep_posX, hpx2]
  · rw [(wrapStep_fields e c2).1, hpy2]
  · rw [(wrapStep_fields e c2).2.1, hvx2]
  · rw [(wrapStep_fields e c2).2.2.1, hvy2]

/-- Witness for C7's amended statement: a character at the left edge of a
100 x 100 level with in-bounds y = 50 and velocity (3, 4) is teleported to
x = 100 keeping y and velocity. -/
theorem world_wrap_amended_witness :
    (touchesTag Tag.goal idleInput.contacts = false ∧
      touchesTag Tag.bomb idleInput.contacts = false ∧
      ({ initChar 50 50 with posX := 0, velX := 3, velY := 4 } : CharState).posY ≤
        sampleEnv.levelH + 200) ∧
    ((charUpdate3 sampleEnv idleInput { initChar 50 50 with posX := 0, velX := 3, velY := 4 }).posX =
      (if ({ initChar 50 50 with posX := 0, velX := 3, velY := 4 } : CharState).posX ≤ 0
        then sampleEnv.levelW
        else if sampleEnv.levelW ≤ ({ initChar 50 50 with posX := 0, velX := 3, velY := 4 } : CharState).posX
        then 0
        else ({ initChar 50 50 with posX := 0, velX := 3, velY := 4 } : CharState).posX) ∧
    (charUpdate3 sampleEnv idleInput { initChar 50 50 with posX := 0, velX := 3, velY := 4 }).posY =
      ({ initChar 50 50 with posX := 0, velX := 3, velY := 4 } : CharState).posY ∧
    (charUpdate3 sampleEnv idleInput { initChar 50 50 with posX := 0, velX := 3, velY := 4 }).velX =
      ({ initChar 50 50 with posX := 0, velX := 3, velY := 4 } : CharState).velX ∧
    (charUpdate3 sampleEnv idleInput { initChar 50 50 with posX := 0, velX := 3, velY := 4 }).velY =
      ({ initChar 50 50 with posX := 0, velX := 3, velY := 4 } : CharState).velY) :=
  ⟨by decide, world_wrap_amended sampleEnv idleInput
    { initChar 50 50 with posX := 0, velX := 3, velY := 4 }
    (by decide) (by decide) (by decide)⟩

lemma assignDNF_unrecorded (pct store : Dict) (n pn : Nat)
    (h1 : 1 ≤ pn) (h2 : pn ≤ n) (h : dictHas pn pct = false) :
    dictGet pn (assignDNF pct store n) = some (-1) := by
  induction n with
  | zero => omega
  | succ m ih =>
      unfold assignDNF
      by_cases hpn : pn = m + 1
      · subst hpn
        rw [h]
        simp only [Bool.false_eq_true, if_false]
        exact dictGet_dictSet_self _ (-1) _
      · have h2m : pn ≤ m := by omega
        by_cases hm : dictHas (m + 1) pct = true
        · rw [hm]
          simp only [if_true]
          exact ih h2m
        · rw [Bool.not_eq_true] at hm
          rw [hm]
          simp only [Bool.false_eq_true, if_false]
          rw [dictGet_dictSet_ne pn (m + 1) (-1) _ (fun hh => hpn hh.symm)]
          exact ih h2m

lemma assignDNF_recorded (pct store : Dict) (n pn : Nat)
    (h : dictHas pn pct = true) :
    dictGet pn (assignDNF pct store n) = dictGet pn store := by
  induction n with
  | zero => rfl
  | succ m ih =>
      unfold assignDNF
      by_cases hm : dictHas (m + 1) pct = true
      · rw [hm]
        simp only [if_true]
        exact ih
      · rw [Bool.not_eq_true] at hm
        rw [hm]
        simp only [Bool.false_eq_true, if_false]
        have hne : pn ≠ m + 1 := fun hh => by rw [hh, hm] at h; exact Bool.false_ne_true h
        rw [dictGet_dictSet_ne pn (m + 1) (-1) _ (fun hh => hne hh.symm)]
        exact ih

/-- C8: in the level-3 scene, when the elapsed time reaches the time limit
during an update that does not take the all-finished early exit, the scene
transition is requested and, in the cross-scene level-3 store, every player
number 1..numCharacters without a recorded completion time is assigned the
-1 DNF sentinel, while players with a recorded completion time keep their
store entry unchanged. -/
theorem scene3_timeout_dnf (s : Scene3State) (dt : ℚ) (pn : Nat)
    (h1 : 1 ≤ pn) (h2 : pn ≤ s.numCharacters)
    (hT : s.timeLimit ≤ s.elapsedTime + dt)
    (hE : scene3AllFinishedExit dt s = false) :
    (scene3Update dt s).transitionRequested = true ∧
    dictGet pn (scene3Update dt s).playerTimesLevel3 =
      (if dictGet pn s.playerCompletionTimes = none then some (-1)
       else dictGet pn s.playerTimesLevel3) := by
  unfold scene3Update
  rw [hE]
  simp only [Bool.false_eq_true, if_false, if_pos hT]
  refine ⟨trivial, ?_⟩
  by_cases hrec : dictGet pn s.playerCompletionTimes = none
  · rw [if_pos hrec]
    exact assignDNF_unrecorded s.playerCompletionTimes s.playerTimesLevel3
      s.numCharacters pn h1 h2 ((dictHas_false_iff_dictGet_none pn _).mpr hrec)
  · rw [if_neg hrec]
    have hhas : dictHas pn s.playerCompletionTimes = true := by
      by_contra hc
      rw [Bool.not_eq_true] at hc
      exact hrec ((dictHas_false_iff_dictGet_none pn _).mp hc)
    exact assignDNF_recorded s.playerCompletionTimes s.playerTimesLevel3
      s.numCharacters pn hhas

/-- Witness for C8: a two-character level-3 scene at 119 s of a 120 s limit
taking a 2 s frame; player 2 has no completion time and receives the -1
sentinel while player 1 keeps its 10 s entry. -/
theorem scene3_timeout_dnf_witness :
    (1 ≤ 2 ∧ 2 ≤ sampleScene3.numCharacters ∧
      sampleScene3.timeLimit ≤ sampleScene3.elapsedTime + 2 ∧
      scene3AllFinishedExit 2 sampleScene3 = false) ∧
    ((scene3Update 2 sampleScene3).transitionRequested = true ∧
      dictGet 2 (scene3Update 2 sampleScene3).playerTimesLevel3 =
        (if dictGet 2 sampleScene3.playerCompletionTimes = none then some (-1)
         else dictGet 2 sampleScene3.playerTimesLevel3)) :=
  ⟨by decide, scene3_timeout_dnf sampleScene3 2 2
    (by decide) (by decide) (by decide) (by decide)⟩

/-- C9: for completion totals P1 = 65.2 s, P2 = -1 (DNF sentinel),
P3 = 40 s, the leaderboard ranks the players P3, P1, P2 (valid times
ascending, DNF last) and formats 65.2 as "1:05.20", -1 as "DNF" and 40 as
"0:40.00". -/
theorem leaderboard_ranking :
    (buildResults lbTimes1 lbTimesZero lbTimesZero).map (fun r => r.player) = [3, 1, 2] ∧
    (buildResults lbTimes1 lbTimesZero lbTimesZero).map (fun r => r.status) =
      ["0:40.00", "1:05.20", "DNF"] ∧
    format_time (326 / 5) = "1:05.20" ∧
    format_time (-1) = "DNF" ∧
    format_time 40 = "0:40.00" := by
  decide

lemma timerInvariant_of_fields {c c2 : CharState}
    (hf : c2.fallThrough = c.fallThrough) (hft : c2.fallThroughTimer = c.fallThroughTimer)
    (ha : c2.attack = c.attack) (hat : c2.attackDisplayTimer = c.attackDisplayTimer)
    (h : timerInvariant c) : timerInvariant c2 := by
  unfold timerInvariant ftInvariant atkInvariant at *
  rw [hf, hft, ha, hat]
  exact h

lemma charUpdate1_timerInvariant (e : LevelEnv) (i : CharInput) (c : CharState)
    (h : timerInvariant c) : timerInvariant (charUpdate1 e i c) := by
  obtain ⟨hft, hatk⟩ := h
  have h1f : ftInvariant (ftPhase i.downPressed i.dt c) := ftPhase_ftInv _ _ _ hft
  have h1a : atkInvariant (ftPhase i.downPressed i.dt c) := by
    obtain ⟨_, _, _, _, _, _, ha, hat, _⟩ := ftPhase_other_fields i.downPressed i.dt c
    unfold atkInvariant at *
    rw [ha, hat]
    exact hatk
  have h2a : atkInvariant (attackPhase i.attackPressed i.dt (ftPhase i.downPressed i.dt c)) :=
    attackPhase_atkInv _ _ _ h1a
  have h2f : ftInvariant (attackPhase i.attackPressed i.dt (ftPhase i.downPressed i.dt c)) := by
    obtain ⟨_, _, _, _, _, _, hf2, hft2, _⟩ :=
      attackPhase_other_fields i.attackPressed i.dt (ftPhase i.downPressed i.dt c)
    unfold ftInvariant at *
    rw [hf2, hft2]
    exact h1f
  unfold charUpdate1
  set c2 := attackPhase i.attackPressed i.dt (ftPhase i.downPressed i.dt c) with hc2
  obtain ⟨hgf, hgft, hga, hgat, _, _⟩ := goalPhase_timer_fields i.contacts c2
  have h3 : timerInvariant (goalPhase i.contacts c2) :=
    timerInvariant_of_fields hgf hgft hga hgat ⟨h2f, h2a⟩
  obtain ⟨hrf, hrft, hra, hrat, _⟩ := respawnPhase_timer_fields e (goalPhase i.contacts c2)
  exact timerInvariant_of_fields hrf hrft hra hrat h3

lemma charUpdate3_timerInvariant (e : LevelEnv) (i : CharInput) (c : CharState)
    (h : timerInvariant c) : timerInvariant (charUpdate3 e i c) := by
  obtain ⟨hft, hatk⟩ := h
  have h1f : ftInvariant (ftPhase i.downPressed i.dt c) := ftPhase_ftInv _ _ _ hft
  have h1a : atkInvariant (ftPhase i.downPressed i.dt c) := by
    obtain ⟨_, _, _, _, _, _, ha, hat, _⟩ := ftPhase_other_fields i.downPressed i.dt c
    unfold atkInvariant at *
    rw [ha, hat]
    exact hatk
  have h2a : atkInvariant (attackPhase i.attackPressed i.dt (ftPhase i.downPressed i.dt c)) :=
    attackPhase_atkInv _ _ _ h1a
  have h2f : ftInvariant (attackPhase i.attackPressed i.dt (ftPhase i.downPressed i.dt c)) := by
    obtain ⟨_, _, _, _, _, _, hf2, hft2, _⟩ :=
      attackPhase_other_fields i.attackPressed i.dt (ftPhase i.downPressed i.dt c)
    unfold ftInvariant at *
    rw [hf2, hft2]
    exact h1f
  unfold charUpdate3
  set c2 := attackPhase i.attackPressed i.dt (ftPhase i.downPressed i.dt c) with hc2
  obtain ⟨hgf, hgft, hga, hgat, _, _⟩ := goalPhase_timer_fields i.contacts c2
  have h3 : timerInvariant (goalPhase i.contacts c2) :=
    timerInvariant_of_fields hgf hgft hga hgat ⟨h2f, h2a⟩
  obtain ⟨hbf, hbft, hba, hbat, _, _, _⟩ :=
    bombPhase_timer_fields i.contacts (goalPhase i.contacts c2)
  have h4 : timerInvariant (bombPhase i.contacts (goalPhase i.contacts c2)) :=
    timerInvariant_of_fields hbf hbft hba hbat h3
  obtain ⟨hwf, hwft, hwa, hwat, _⟩ :=
    wrapRespawnPhase_timer_fields e (bombPhase i.contacts (goalPhase i.contacts c2))
  exact timerInvariant_of_fields hwf hwft hwa hwat h4

lemma foldl_charUpdate1_timerInvariant (steps : List (LevelEnv × CharInput)) :
    ∀ c : CharState, timerInvariant c →
      timerInvariant (steps.foldl (fun a q => charUpdate1 q.1 q.2 a) c) := by
  induction steps with
  | nil => intro c h; exact h
  | cons q rest ih =>
      intro c h
      exact ih _ (charUpdate1_timerInvariant q.1 q.2 c h)

lemma foldl_charUpdate3_timerInvariant (steps : List (LevelEnv × CharInput)) :
    ∀ c : CharState, timerInvariant c →
      timerInvariant (steps.foldl (fun a q => charUpdate3 q.1 q.2 a) c) := by
  induction steps with
  | nil => intro c h; exact h
  | cons q rest ih =>
      intro c h
      exact ih _ (charUpdate3_timerInvariant q.1 q.2 c h)

/-- C10: from the initial character state, after any sequence of updates (in
either level scene) the timer-flag pairing holds: the fall-through flag is
set exactly while its timer is strictly positive, and the attack flag exactly
while the attack display timer is strictly positive — so a frame time at
least as large as the remaining duration clears the flag within that same
update. -/
theorem timer_flag_pairing (sx sy : ℚ) (steps1 steps3 : List (LevelEnv × CharInput)) :
    timerInvariant (steps1.foldl (fun a q => charUpdate1 q.1 q.2 a) (initChar sx sy)) ∧
    timerInvariant (steps3.foldl (fun a q => charUpdate3 q.1 q.2 a) (initChar sx sy)) := by
  have hinit : timerInvariant (initChar sx sy) := by
    unfold timerInvariant ftInvariant atkInvariant initChar
    norm_num
  exact ⟨foldl_charUpdate1_timerInvariant steps1 _ hinit,
    foldl_charUpdate3_timerInvariant steps3 _ hinit⟩

end NGameRunner
